/-
  Verification of the portfolio WebGL animation system.

  Shallow embedding of the scroll controller, animation context store,
  ping-pong framebuffer, cursor spring, blue-noise cache, morph shader
  rewriter and renderer frame loops, with proofs of the specified
  properties.  Real numbers of the source are modelled as exact
  rationals (ℚ).
-/
import Mathlib

namespace Portfolio

/-! ## ScrollController (ScrollController.tsx)

`SECTIONS` is the ordered section table; `getCurrentSection` is the
linear scan with fallback to the last entry; `handleScroll` publishes
`uCalmFactor = min (progress*0.7 + sectionIndex*0.05) 0.9`. -/

structure Sec where
  id : String
  start : ℚ
  -- `end` in the source; renamed because `end` is a Lean keyword
  stop : ℚ
deriving DecidableEq, Repr

def SECTIONS : List Sec :=
  [ ⟨"home", 0, 0.15⟩,
    ⟨"about", 0.15, 0.30⟩,
    ⟨"skills", 0.30, 0.45⟩,
    ⟨"projects", 0.45, 0.65⟩,
    ⟨"experience", 0.65, 0.80⟩,
    ⟨"contact", 0.80, 1.0⟩ ]

/-- Source test: `progress >= section.start && progress < section.end`. -/
def inRange (progress : ℚ) (s : Sec) : Bool :=
  decide (s.start ≤ progress) && decide (progress < s.stop)

/-- Source fallback `SECTIONS[SECTIONS.length - 1]`. -/
def lastSection : Sec := SECTIONS.getLastD ⟨"", 0, 0⟩

/-- The `for`-loop of `getCurrentSection`: first section whose range
contains the fraction, else the last entry of `SECTIONS`. -/
def getCurrentSection (progress : ℚ) : Sec :=
  (SECTIONS.find? (inRange progress)).getD lastSection

/-- Source expression `SECTIONS.findIndex(s => s.id === section.id)` applied to the result
of `getCurrentSection`. -/
def sectionIndexOf (progress : ℚ) : ℕ :=
  SECTIONS.findIdx (fun s => s.id == (getCurrentSection progress).id)

/-- Source: `targetCalm = progress * 0.7 + sectionIndex * 0.05`,
`uCalmFactor = Math.min(targetCalm, 0.9)` (handleScroll lines 99-102). -/
def publishedCalmFactor (progress : ℚ) : ℚ :=
  min (progress * 0.7 + (sectionIndexOf progress : ℚ) * 0.05) 0.9

lemma getCurrentSection_eq (p : ℚ) (h0 : 0 ≤ p) :
    getCurrentSection p =
      if p < 0.15 then ⟨"home", 0, 0.15⟩
      else if p < 0.30 then ⟨"about", 0.15, 0.30⟩
      else if p < 0.45 then ⟨"skills", 0.30, 0.45⟩
      else if p < 0.65 then ⟨"projects", 0.45, 0.65⟩
      else if p < 0.80 then ⟨"experience", 0.65, 0.80⟩
      else ⟨"contact", 0.80, 1.0⟩ := by
  by_cases h1 : p < 0.15
  · simp [getCurrentSection, lastSection, SECTIONS, inRange, List.find?, h0, h1]
  by_cases h2 : p < 0.30
  · simp [getCurrentSection, lastSection, SECTIONS, inRange, List.find?, h1, h2,
      not_lt.mp h1]
  by_cases h3 : p < 0.45
  · simp [getCurrentSection, lastSection, SECTIONS, inRange, List.find?, h1, h2, h3,
      not_lt.mp h2]
  by_cases h4 : p < 0.65
  · simp [getCurrentSection, lastSection, SECTIONS, inRange, List.find?, h1, h2, h3, h4,
      not_lt.mp h3]
  by_cases h5 : p < 0.80
  · simp [getCurrentSection, lastSection, SECTIONS, inRange, List.find?, h1, h2, h3, h4,
      h5, not_lt.mp h4]
  by_cases h6 : p < 1.0
  · simp [getCurrentSection, lastSection, SECTIONS, inRange, List.find?, h1, h2, h3, h4,
      h5, h6, not_lt.mp h5]
  · simp [getCurrentSection, lastSection, SECTIONS, inRange, List.find?, h1, h2, h3, h4,
      h5, h6, not_lt.mp h5]

lemma sectionIndexOf_eq (p : ℚ) (h0 : 0 ≤ p) :
    sectionIndexOf p =
      if p < 0.15 then 0
      else if p < 0.30 then 1
      else if p < 0.45 then 2
      else if p < 0.65 then 3
      else if p < 0.80 then 4
      else 5 := by
  rw [sectionIndexOf, getCurrentSection_eq p h0]
  split_ifs <;> decide

lemma publishedCalmFactor_eq (p : ℚ) (h0 : 0 ≤ p) :
    publishedCalmFactor p =
      min (p * 0.7 +
        (if p < 0.15 then (0 : ℚ)
         else if p < 0.30 then 1
         else if p < 0.45 then 2
         else if p < 0.65 then 3
         else if p < 0.80 then 4
         else 5) * 0.05) 0.9 := by
  rw [publishedCalmFactor, sectionIndexOf_eq p h0]
  split_ifs <;> norm_num

lemma publishedCalmFactor_mono (f₁ f₂ : ℚ) (h₀ : 0 ≤ f₁) (h₁₂ : f₁ ≤ f₂) :
    publishedCalmFactor f₁ ≤ publishedCalmFactor f₂ := by
  rw [publishedCalmFactor_eq f₁ h₀, publishedCalmFactor_eq f₂ (le_trans h₀ h₁₂)]
  apply min_le_min _ le_rfl
  have hmul : f₁ * 0.7 ≤ f₂ * 0.7 := by linarith
  split_ifs <;> linarith

/-- C1: for every scroll fraction `f ∈ [0,1]` the published calm factor
target equals `min (f*0.7 + sectionIndex(f)*0.05) 0.9`; it is monotone
non-decreasing in the fraction and always at most `0.9`. -/
theorem scroll_calm_factor_spec (f₁ f₂ : ℚ) (h₀ : 0 ≤ f₁) (h₁₂ : f₁ ≤ f₂)
    (h₂ : f₂ ≤ 1) :
    publishedCalmFactor f₁
      = min (f₁ * 0.7 + (sectionIndexOf f₁ : ℚ) * 0.05) 0.9 ∧
    publishedCalmFactor f₁ ≤ publishedCalmFactor f₂ ∧
    publishedCalmFactor f₁ ≤ 0.9 ∧ publishedCalmFactor f₂ ≤ 0.9 :=
  ⟨rfl, publishedCalmFactor_mono f₁ f₂ h₀ h₁₂, min_le_right _ _, min_le_right _ _⟩

theorem scroll_calm_factor_spec_witness :
    (0 : ℚ) ≤ 0.5 ∧ (0.5 : ℚ) ≤ 0.75 ∧ (0.75 : ℚ) ≤ 1 ∧
    (publishedCalmFactor 0.5
        = min ((0.5 : ℚ) * 0.7 + (sectionIndexOf 0.5 : ℚ) * 0.05) 0.9 ∧
      publishedCalmFactor 0.5 ≤ publishedCalmFactor 0.75 ∧
      publishedCalmFactor 0.5 ≤ 0.9 ∧ publishedCalmFactor 0.75 ≤ 0.9) :=
  ⟨by norm_num, by norm_num, by norm_num,
    scroll_calm_factor_spec 0.5 0.75 (by norm_num) (by norm_num) (by norm_num)⟩

lemma countP_inRange_eq (f : ℚ) (h0 : 0 ≤ f) :
    SECTIONS.countP (inRange f) = if f < 1 then 1 else 0 := by
  by_cases h1 : f < 0.15
  · have : f < 1 := by linarith
    simp [SECTIONS, inRange, List.countP, List.countP.go, h0, h1, this,
      (by linarith : ¬ (0.15 : ℚ) ≤ f), (by linarith : ¬ (0.30 : ℚ) ≤ f),
      (by linarith : ¬ (0.45 : ℚ) ≤ f), (by linarith : ¬ (0.65 : ℚ) ≤ f),
      (by linarith : ¬ (0.80 : ℚ) ≤ f)]
  by_cases h2 : f < 0.30
  · have : f < 1 := by linarith
    simp [SECTIONS, inRange, List.countP, List.countP.go, h1, h2, this,
      not_lt.mp h1, (by linarith : ¬ (0.30 : ℚ) ≤ f),
      (by linarith : ¬ (0.45 : ℚ) ≤ f), (by linarith : ¬ (0.65 : ℚ) ≤ f),
      (by linarith : ¬ (0.80 : ℚ) ≤ f)]
  by_cases h3 : f < 0.45
  · have : f < 1 := by linarith
    simp [SECTIONS, inRange, List.countP, List.countP.go, h1, h2, h3, this,
      not_lt.mp h2, (by linarith : ¬ (0.45 : ℚ) ≤ f),
      (by linarith : ¬ (0.65 : ℚ) ≤ f), (by linarith : ¬ (0.80 : ℚ) ≤ f)]
  by_cases h4 : f < 0.65
  · have : f < 1 := by linarith
    simp [SECTIONS, inRange, List.countP, List.countP.go, h1, h2, h3, h4, this,
      not_lt.mp h3, (by linarith : ¬ (0.65 : ℚ) ≤ f),
      (by linarith : ¬ (0.80 : ℚ) ≤ f)]
  by_cases h5 : f < 0.80
  · have : f < 1 := by linarith
    simp [SECTIONS, inRange, List.countP, List.countP.go, h1, h2, h3, h4, h5, this,
      not_lt.mp h4, (by linarith : ¬ (0.80 : ℚ) ≤ f)]
  by_cases h6 : f < 1
  · have h6' : f < 1.0 := lt_of_lt_of_le h6 (by norm_num)
    simp [SECTIONS, inRange, List.countP, List.countP.go, h1, h2, h3, h4, h5, h6, h6',
      not_lt.mp h5]
  · have h6' : ¬ f < 1.0 := fun hc => h6 (lt_of_lt_of_le hc (by norm_num))
    simp [SECTIONS, inRange, List.countP, List.countP.go, h1, h2, h3, h4, h5, h6, h6',
      not_lt.mp h5]

/-- C2: for `f ∈ [0,1)` exactly one entry of `SECTIONS` contains `f` and
the lookup returns a containing section; at `f = 1` no range matches and
the lookup falls back to the last section; in general whenever no range
matches, the lookup returns the last section. -/
theorem section_lookup_spec (f : ℚ) (h0 : 0 ≤ f) (h1 : f ≤ 1) :
    (f < 1 → SECTIONS.countP (inRange f) = 1 ∧
      inRange f (getCurrentSection f) = true) ∧
    (f = 1 → SECTIONS.countP (inRange f) = 0 ∧ getCurrentSection f = lastSection) ∧
    (SECTIONS.countP (inRange f) = 0 → getCurrentSection f = lastSection) := by
  refine ⟨fun hlt => ⟨?_, ?_⟩, fun heq => ⟨?_, ?_⟩, fun hz => ?_⟩
  · rw [countP_inRange_eq f h0]
    simp [hlt]
  · rw [getCurrentSection_eq f h0]
    split_ifs with g1 g2 g3 g4 g5
    · simp [inRange, h0, g1]
    · simp [inRange, g2, not_lt.mp g1]
    · simp [inRange, g3, not_lt.mp g2]
    · simp [inRange, g4, not_lt.mp g3]
    · simp [inRange, g5, not_lt.mp g4]
    · have hlt' : f < 1.0 := lt_of_lt_of_le hlt (by norm_num)
      simp [inRange, hlt', not_lt.mp g5]
  · rw [countP_inRange_eq f h0]
    simp [heq]
  · subst heq
    rw [getCurrentSection_eq 1 (by norm_num)]
    norm_num [lastSection, SECTIONS]
  · have hfind : SECTIONS.find? (inRange f) = none := by
      rw [List.find?_eq_none]
      intro s hs hr
      have := List.countP_pos (p := inRange f) (l := SECTIONS) |>.mpr ⟨s, hs, hr⟩
      omega
    simp [getCurrentSection, hfind]

theorem section_lookup_spec_witness :
    (0 : ℚ) ≤ 0.2 ∧ (0.2 : ℚ) ≤ 1 ∧
    (((0.2 : ℚ) < 1 → SECTIONS.countP (inRange 0.2) = 1 ∧
        inRange 0.2 (getCurrentSection 0.2) = true) ∧
      ((0.2 : ℚ) = 1 → SECTIONS.countP (inRange 0.2) = 0 ∧
        getCurrentSection 0.2 = lastSection) ∧
      (SECTIONS.countP (inRange 0.2) = 0 → getCurrentSection 0.2 = lastSection)) :=
  ⟨by norm_num, by norm_num, section_lookup_spec 0.2 (by norm_num) (by norm_num)⟩

/-! ## PingPongFramebuffer (utils/PingPongFramebuffer.ts)

Render targets are modelled by their identities (ℕ); the constructor
allocates two distinct targets; `current : 'A' | 'B'` is a Bool
(`true` = `'A'`). `setSize` resizes in place and keeps identities. -/

structure PingPongFramebuffer where
  targetA : ℕ
  targetB : ℕ
  -- `private current: 'A' | 'B' = 'A'`; true stands for 'A'
  current : Bool
deriving DecidableEq, Repr

namespace PingPongFramebuffer

/-- Constructor `new PingPongFramebuffer(...)`: two freshly allocated (distinct)
render targets, `current = 'A'`. -/
def create : PingPongFramebuffer := ⟨0, 1, true⟩

/-- Source: `return this.current === 'A' ? this.targetA : this.targetB`. -/
def read (b : PingPongFramebuffer) : ℕ :=
  if b.current then b.targetA else b.targetB

/-- Source: `return this.current === 'A' ? this.targetB : this.targetA`. -/
def write (b : PingPongFramebuffer) : ℕ :=
  if b.current then b.targetB else b.targetA

/-- Source: `this.current = this.current === 'A' ? 'B' : 'A'`. -/
def swap (b : PingPongFramebuffer) : PingPongFramebuffer :=
  { b with current := !b.current }

/-- Operation `setSize` resizes both targets in place; identities are unchanged. -/
def setSize (b : PingPongFramebuffer) (_w _h : ℕ) : PingPongFramebuffer := b

/-- States reachable from construction by the public operations. -/
inductive Reachable : PingPongFramebuffer → Prop
  | create : Reachable create
  | swap {b} : Reachable b → Reachable (swap b)
  | setSize {b} (w h : ℕ) : Reachable b → Reachable (setSize b w h)

lemma reachable_targets_ne {b : PingPongFramebuffer} (h : Reachable b) :
    b.targetA ≠ b.targetB := by
  induction h with
  | create => simp [create]
  | swap _ ih => exact ih
  | setSize w h _ ih => exact ih

end PingPongFramebuffer

/-- C3: in every reachable state of the ping-pong pair, `read()` and
`write()` return distinct targets, and immediately after `swap()` the
target previously returned by `write()` is returned by `read()`. -/
theorem pingpong_read_write_spec (b : PingPongFramebuffer)
    (h : PingPongFramebuffer.Reachable b) :
    b.read ≠ b.write ∧ b.swap.read = b.write := by
  have hne := PingPongFramebuffer.reachable_targets_ne h
  cases hcur : b.current <;>
    simp [PingPongFramebuffer.read, PingPongFramebuffer.write,
      PingPongFramebuffer.swap, hcur, hne, Ne.symm hne]

theorem pingpong_read_write_spec_witness :
    PingPongFramebuffer.create.swap.read ≠ PingPongFramebuffer.create.swap.write ∧
    PingPongFramebuffer.create.swap.swap.read = PingPongFramebuffer.create.swap.write :=
  pingpong_read_write_spec PingPongFramebuffer.create.swap
    (PingPongFramebuffer.Reachable.swap PingPongFramebuffer.Reachable.create)

/-! ## AnimationContext (AnimationContext.tsx)

The reactive `AnimationState` and the non-reactive `uniformsRef` mirror,
with the six setters of `AnimationProvider`. -/

structure AnimationState where
  currentSection : String
  scrollProgress : ℚ
  sectionProgress : ℚ
  cursorPosition : ℚ × ℚ
  scrollVelocity : ℚ
  isTransitioning : Bool
  transitionProgress : ℚ
deriving DecidableEq, Repr

structure Uniforms where
  uTime : ℚ
  uScrollProgress : ℚ
  uSectionProgress : ℚ
  uCursorPosition : ℚ × ℚ
  uScrollVelocity : ℚ
  uTransitionProgress : ℚ
  uSectionIndex : ℕ
  uCalmFactor : ℚ
deriving DecidableEq, Repr

/-- Source lookup `sectionMap[sectionId] ?? 0`. -/
def sectionMap (sectionId : String) : ℕ :=
  if sectionId = "home" then 0
  else if sectionId = "about" then 1
  else if sectionId = "skills" then 2
  else if sectionId = "projects" then 3
  else if sectionId = "experience" then 4
  else if sectionId = "contact" then 5
  else 0

def setSection (sectionId : String) :
    AnimationState × Uniforms → AnimationState × Uniforms :=
  fun su => ({ su.1 with currentSection := sectionId },
             { su.2 with uSectionIndex := sectionMap sectionId })

def setScrollProgress (progress : ℚ) :
    AnimationState × Uniforms → AnimationState × Uniforms :=
  fun su => ({ su.1 with scrollProgress := progress },
             { su.2 with uScrollProgress := progress })

def setSectionProgress (progress : ℚ) :
    AnimationState × Uniforms → AnimationState × Uniforms :=
  fun su => ({ su.1 with sectionProgress := progress },
             { su.2 with uSectionProgress := progress })

def setCursorPosition (x y : ℚ) :
    AnimationState × Uniforms → AnimationState × Uniforms :=
  fun su => ({ su.1 with cursorPosition := (x, y) },
             { su.2 with uCursorPosition := (x, y) })

def setScrollVelocity (velocity : ℚ) :
    AnimationState × Uniforms → AnimationState × Uniforms :=
  fun su => ({ su.1 with scrollVelocity := velocity },
             { su.2 with uScrollVelocity := velocity })

def setTransitionProgress (progress : ℚ) :
    AnimationState × Uniforms → AnimationState × Uniforms :=
  fun su => ({ su.1 with transitionProgress := progress
                         isTransitioning := decide (0 < progress) && decide (progress < 1) },
             { su.2 with uTransitionProgress := progress })

/-- C8: every store setter synchronously writes the reactive field and
the corresponding mirror field to the same value (`setSection` writes
the mapped section index) and leaves every other mirror field
unchanged. -/
theorem store_setter_mirror_spec (s : AnimationState) (u : Uniforms)
    (sectionId : String) (p x y v : ℚ) :
    ((setSection sectionId (s, u)).1.currentSection = sectionId ∧
     (setSection sectionId (s, u)).2.uSectionIndex = sectionMap sectionId ∧
     (setSection sectionId (s, u)).2 = { u with uSectionIndex := sectionMap sectionId }) ∧
    ((setScrollProgress p (s, u)).1.scrollProgress = p ∧
     (setScrollProgress p (s, u)).2.uScrollProgress = p ∧
     (setScrollProgress p (s, u)).2 = { u with uScrollProgress := p }) ∧
    ((setSectionProgress p (s, u)).1.sectionProgress = p ∧
     (setSectionProgress p (s, u)).2.uSectionProgress = p ∧
     (setSectionProgress p (s, u)).2 = { u with uSectionProgress := p }) ∧
    ((setCursorPosition x y (s, u)).1.cursorPosition = (x, y) ∧
     (setCursorPosition x y (s, u)).2.uCursorPosition = (x, y) ∧
     (setCursorPosition x y (s, u)).2 = { u with uCursorPosition := (x, y) }) ∧
    ((setScrollVelocity v (s, u)).1.scrollVelocity = v ∧
     (setScrollVelocity v (s, u)).2.uScrollVelocity = v ∧
     (setScrollVelocity v (s, u)).2 = { u with uScrollVelocity := v }) ∧
    ((setTransitionProgress p (s, u)).1.transitionProgress = p ∧
     (setTransitionProgress p (s, u)).2.uTransitionProgress = p ∧
     (setTransitionProgress p (s, u)).2 = { u with uTransitionProgress := p }) :=
  ⟨⟨rfl, rfl, rfl⟩, ⟨rfl, rfl, rfl⟩, ⟨rfl, rfl, rfl⟩,
   ⟨rfl, rfl, rfl⟩, ⟨rfl, rfl, rfl⟩, ⟨rfl, rfl, rfl⟩⟩

/-! ## CanvasLayer frame loop (CanvasLayer.tsx, animate lines 494-501)

Every frame the renderer recomputes its own calm target with
coefficients 0.6 / 0.08, smooths it by 0.05 and writes the result back
into the shared mirror's `uCalmFactor`. -/

/-- Source: `targetCalm = uScrollProgress * 0.6 + uSectionIndex * 0.08`,
clamped: `Math.min(targetCalm, 0.9)`. -/
def canvasCalmTarget (scrollProgress sectionIndex : ℚ) : ℚ :=
  min (scrollProgress * 0.6 + sectionIndex * 0.08) 0.9

/-- Source: `currentCalm += (targetCalm - currentCalm) * 0.05`. -/
def canvasCalmStep (currentCalm scrollProgress sectionIndex : ℚ) : ℚ :=
  currentCalm + (canvasCalmTarget scrollProgress sectionIndex - currentCalm) * 0.05

/-- Lines 494-501 of the `animate` callback: recompute the smoothed calm
value from the mirror's scroll progress and section index and write it
into the mirror's `uCalmFactor`. Returns the updated mirror and the
renderer's new internal `currentCalmRef`. -/
def canvasFrameCalmWrite (mirror : Uniforms) (currentCalm : ℚ) : Uniforms × ℚ :=
  let newCalm := canvasCalmStep currentCalm mirror.uScrollProgress
    (mirror.uSectionIndex : ℚ)
  ({ mirror with uCalmFactor := newCalm }, newCalm)

/-- C10: each frame of the primary particle renderer overwrites the
shared mirror's `uCalmFactor` with its own smoothed value
`current + (min(uScrollProgress*0.6 + uSectionIndex*0.08, 0.9) - current)*0.05`,
regardless of the value `P` the Scroll Controller last published into
that field; and the two writers' formulas genuinely differ (0.7/0.05 vs
0.6/0.08), e.g. at scroll progress 0.5 in section 3. -/
theorem canvas_calm_overwrite_spec (mirror : Uniforms) (currentCalm P : ℚ) :
    ((canvasFrameCalmWrite { mirror with uCalmFactor := P } currentCalm).1).uCalmFactor
      = canvasCalmStep currentCalm mirror.uScrollProgress (mirror.uSectionIndex : ℚ) ∧
    (canvasFrameCalmWrite { mirror with uCalmFactor := P } currentCalm).2
      = canvasCalmStep currentCalm mirror.uScrollProgress (mirror.uSectionIndex : ℚ) ∧
    canvasCalmTarget 0.5 3 ≠ min ((0.5 : ℚ) * 0.7 + 3 * 0.05) 0.9 :=
  ⟨rfl, rfl, by norm_num [canvasCalmTarget]⟩

/-! ## BlueNoiseGenerator (utils/BlueNoiseGenerator.ts)

The module-level `cachedBlueNoise` variable is the cache; a texture is
modelled by its identity (an allocation counter). `generateBlueNoise`
returns the cached texture only when `cachedBlueNoise.image.width ===
size`; otherwise it allocates a fresh texture and replaces the cache. -/

structure BlueNoiseState where
  -- `cachedBlueNoise`: (image.width, texture identity) when non-null
  cache : Option (ℕ × ℕ)
  -- allocation counter providing fresh texture identities
  nextId : ℕ
deriving DecidableEq, Repr

/-- Function `generateBlueNoise(size)`: return the cached texture if its width
matches, else build a new `DataTexture`, cache it and return it. -/
def generateBlueNoise (size : ℕ) (s : BlueNoiseState) : ℕ × BlueNoiseState :=
  match s.cache with
  | some (w, texId) =>
      if w = size then (texId, s)
      else (s.nextId, ⟨some (size, s.nextId), s.nextId + 1⟩)
  | none => (s.nextId, ⟨some (size, s.nextId), s.nextId + 1⟩)

/-- Function `disposeBlueNoise()`: dispose the cached texture and set the cache
to `null`. -/
def disposeBlueNoise (s : BlueNoiseState) : BlueNoiseState :=
  ⟨none, s.nextId⟩

/-- C9 counterexample: two calls with size 64 separated by a call with
size 32 — and with no dispose anywhere — return different texture
instances, so identity under same-size calls does not persist until
dispose; the intervening different-size call already replaced the
cache. -/
theorem blue_noise_cache_counterexample :
    (generateBlueNoise 64
        (generateBlueNoise 32 (generateBlueNoise 64 ⟨none, 0⟩).2).2).1
      ≠ (generateBlueNoise 64 (⟨none, 0⟩ : BlueNoiseState)).1 := by
  decide

/-- C9 amended: a repeated call with the same size — with no intervening
different-size call or dispose — returns the identical cached instance
and leaves the cache unchanged; the cache is cleared by `dispose`, but
it is also replaced by a call with a different size. -/
theorem blue_noise_cache_amended (s : BlueNoiseState) (size size' : ℕ) :
    generateBlueNoise size (generateBlueNoise size s).2 = generateBlueNoise size s ∧
    (disposeBlueNoise s).cache = none ∧
    (size' ≠ size →
      ((generateBlueNoise size' (generateBlueNoise size s).2).2).cache
        = some (size', (generateBlueNoise size s).2.nextId)) := by
  refine ⟨?_, rfl, ?_⟩
  · rcases hc : s.cache with _ | ⟨w, texId⟩
    · simp [generateBlueNoise, hc]
    · by_cases hw : w = size <;> simp [generateBlueNoise, hc, hw]
  · intro hne
    rcases hc : s.cache with _ | ⟨w, texId⟩
    · simp [generateBlueNoise, hc, Ne.symm hne]
    · by_cases hw : w = size <;>
        simp [generateBlueNoise, hc, hw, Ne.symm hne]

theorem blue_noise_cache_amended_witness :
    ((generateBlueNoise 64
        (generateBlueNoise 32 (⟨none, 0⟩ : BlueNoiseState)).2).2).cache
      = some (64, (generateBlueNoise 32 (⟨none, 0⟩ : BlueNoiseState)).2.nextId) ∧
    generateBlueNoise 32 (generateBlueNoise 32 (⟨none, 0⟩ : BlueNoiseState)).2
      = generateBlueNoise 32 (⟨none, 0⟩ : BlueNoiseState) :=
  ⟨(blue_noise_cache_amended ⟨none, 0⟩ 32 64).2.2 (by decide),
   (blue_noise_cache_amended ⟨none, 0⟩ 32 64).1⟩

/-! ## Renderer frame-callback guards

`MotionVectorMap.animate` (MotionVectorMap.tsx lines 325-332) and
`DistortionLayer.animate` guard chains. Each step returns
(renderedThisFrame, rescheduledNextFrame). -/

structure MotionVectorResources where
  renderer : Bool
  scene : Bool
  camera : Bool
  highResPingPong : Bool
  lowResTarget : Bool
  paintMaterial : Bool
  blurMaterial : Bool
  quad : Bool
  enabled : Bool
deriving DecidableEq, Repr

/-- The guard chain of `MotionVectorMap.animate`: the first three guards
`return` without calling `requestAnimationFrame`; only the quad/enabled
guard re-schedules before returning; the full body renders and
re-schedules. -/
def motionVectorAnimateStep (r : MotionVectorResources) : Bool × Bool :=
  if !r.renderer || !r.scene || !r.camera then (false, false)
  else if !r.highResPingPong || !r.lowResTarget then (false, false)
  else if !r.paintMaterial || !r.blurMaterial then (false, false)
  else if !r.quad || !r.enabled then (false, true)
  else (true, true)

structure DistortionResources where
  renderer : Bool
  scene : Bool
  camera : Bool
  material : Bool
  enabled : Bool
deriving DecidableEq, Repr

/-- The guard chain of `DistortionLayer.animate`: the renderer/scene/
camera guard returns without re-scheduling; the material/enabled guard
re-schedules. -/
def distortionAnimateStep (r : DistortionResources) : Bool × Bool :=
  if !r.renderer || !r.scene || !r.camera then (false, false)
  else if !r.material || !r.enabled then (false, true)
  else (true, true)

/-- C6 counterexample: with the renderer not yet initialized (all other
resources ready), `MotionVectorMap.animate` skips the frame but does
NOT re-schedule itself, and the same holds for `DistortionLayer.animate`,
so the render loop permanently stops instead of retrying next frame. -/
theorem animate_reschedule_counterexample :
    motionVectorAnimateStep
        ⟨false, true, true, true, true, true, true, true, true⟩
      = (false, false) ∧
    distortionAnimateStep ⟨false, true, true, true, true⟩ = (false, false) :=
  ⟨rfl, rfl⟩

/-- C6 amended: a frame callback re-schedules itself exactly when its
early resource guards pass — for `MotionVectorMap`: renderer, scene,
camera, both render targets and both materials present; for
`DistortionLayer`: renderer, scene and camera present. When one of
those is missing the callback returns without re-scheduling and the
loop stops; a missing quad/material or a disabled flag skips the render
but still re-schedules; with everything present and enabled the
callback renders and re-schedules. -/
theorem animate_reschedule_amended (r : MotionVectorResources)
    (d : DistortionResources) :
    motionVectorAnimateStep r
      = (r.renderer && r.scene && r.camera && r.highResPingPong &&
           r.lowResTarget && r.paintMaterial && r.blurMaterial &&
           r.quad && r.enabled,
         r.renderer && r.scene && r.camera && r.highResPingPong &&
           r.lowResTarget && r.paintMaterial && r.blurMaterial) ∧
    distortionAnimateStep d
      = (d.renderer && d.scene && d.camera && d.material && d.enabled,
         d.renderer && d.scene && d.camera) := by
  constructor
  · obtain ⟨a, b, c, e, f, g, h, i, j⟩ := r
    cases a <;> cases b <;> cases c <;> cases e <;> cases f <;> cases g <;>
      cases h <;> cases i <;> cases j <;> rfl
  · obtain ⟨a, b, c, e, f⟩ := d
    cases a <;> cases b <;> cases c <;> cases e <;> cases f <;> rfl

/-! ## Scroll velocity decay (ScrollController.tsx, handleScroll lines 120-125)

`handleScroll` schedules exactly one `requestAnimationFrame` callback:
`velocityRef *= 0.92; smoothedVelocityRef += (velocityRef -
smoothedVelocityRef) * 0.1; setScrollVelocity(min(smoothed/800, 1))`.
The callback does not schedule anything itself. `pending` counts the
decay callbacks currently scheduled (1 right after a scroll event). -/

structure ScrollVelocityState where
  velocity : ℚ
  smoothed : ℚ
  -- last value passed to `setScrollVelocity`
  published : ℚ
  -- number of scheduled decay callbacks (1 right after `handleScroll`)
  pending : ℕ
deriving DecidableEq, Repr

/-- Body of the rAF callback scheduled by `handleScroll` (lines 121-125).
It schedules no further callback. -/
def decayCallback (s : ScrollVelocityState) : ScrollVelocityState :=
  let v := s.velocity * 0.92
  let sm := s.smoothed + (v - s.smoothed) * 0.1
  { velocity := v
    smoothed := sm
    published := min (sm / 800) 1
    pending := s.pending }

/-- One animation frame with no scroll input: run a pending decay
callback if any; since the callback schedules nothing, `pending` only
decreases. -/
def idleFrame (s : ScrollVelocityState) : ScrollVelocityState :=
  if s.pending = 0 then s
  else { decayCallback s with pending := s.pending - 1 }

/-- Run of `n` consecutive animation frames with no scroll input. -/
def idleRun : ℕ → ScrollVelocityState → ScrollVelocityState
  | 0, s => s
  | n + 1, s => idleFrame (idleRun n s)

lemma idleFrame_of_pending_zero (s : ScrollVelocityState)
    (h : s.pending = 0) : idleFrame s = s := by
  simp [idleFrame, h]

/-- C7 counterexample: starting from the state right after a scroll
event (velocity accumulator 800, smoothed 800, one scheduled decay
callback), the second idle animation frame leaves the state exactly as
the first did: the velocity is not multiplied by 0.92 again and the
published normalized velocity stays frozen at the nonzero value 124/125
for all further idle frames, instead of relaxing to zero. -/
theorem velocity_decay_counterexample :
    idleRun 2 ⟨800, 800, 1, 1⟩ = idleRun 1 ⟨800, 800, 1, 1⟩ ∧
    (idleRun 2 (⟨800, 800, 1, 1⟩ : ScrollVelocityState)).velocity
      ≠ 0.92 * (idleRun 1 (⟨800, 800, 1, 1⟩ : ScrollVelocityState)).velocity ∧
    (idleRun 1 (⟨800, 800, 1, 1⟩ : ScrollVelocityState)).published = 124 / 125 ∧
    (124 / 125 : ℚ) ≠ 0 := by
  have h1 : idleRun 1 (⟨800, 800, 1, 1⟩ : ScrollVelocityState)
      = ⟨736, 793.6, 124 / 125, 0⟩ := by
    show idleFrame ⟨800, 800, 1, 1⟩ = _
    norm_num [idleFrame, decayCallback, min_def]
  have h2 : idleRun 2 (⟨800, 800, 1, 1⟩ : ScrollVelocityState)
      = ⟨736, 793.6, 124 / 125, 0⟩ := by
    show idleFrame (idleRun 1 ⟨800, 800, 1, 1⟩) = _
    rw [h1, idleFrame_of_pending_zero _ rfl]
  refine ⟨h2.trans h1.symm, ?_, ?_, by norm_num⟩
  · rw [h1, h2]
    norm_num
  · rw [h1]

/-- C7 amended: after a scroll event, exactly one decay tick runs on the
next idle animation frame — it multiplies the velocity accumulator by
0.92, re-blends the smoothed display value toward it by 0.1 and
republishes `min(smoothed/800, 1)` — and every further idle frame is a
no-op, so during scroll inactivity the published velocity freezes at
the once-decayed value instead of continuing to relax toward zero. -/
theorem velocity_decay_amended (s : ScrollVelocityState)
    (hp : s.pending = 1) (n : ℕ) (hn : 1 ≤ n) :
    (idleRun 1 s).velocity = s.velocity * 0.92 ∧
    (idleRun 1 s).smoothed
      = s.smoothed + (s.velocity * 0.92 - s.smoothed) * 0.1 ∧
    (idleRun 1 s).published = min ((idleRun 1 s).smoothed / 800) 1 ∧
    (idleRun 1 s).pending = 0 ∧
    idleRun n s = idleRun 1 s := by
  have h1 : idleRun 1 s = { decayCallback s with pending := 0 } := by
    show idleFrame s = _
    simp [idleFrame, hp]
  refine ⟨by rw [h1]; rfl, by rw [h1]; rfl, by rw [h1]; rfl, by rw [h1], ?_⟩
  induction n with
  | zero => omega
  | succ m ih =>
    rcases Nat.lt_or_ge 1 (m + 1) with hm | hm
    · have hm' : 1 ≤ m := by omega
      show idleFrame (idleRun m s) = idleRun 1 s
      rw [ih hm', h1]
      exact idleFrame_of_pending_zero _ rfl
    · have : m = 0 := by omega
      subst this
      rfl

theorem velocity_decay_amended_witness :
    (idleRun 1 (⟨800, 800, 1, 1⟩ : ScrollVelocityState)).velocity
        = (800 : ℚ) * 0.92 ∧
    (idleRun 1 (⟨800, 800, 1, 1⟩ : ScrollVelocityState)).smoothed
        = (800 : ℚ) + ((800 : ℚ) * 0.92 - 800) * 0.1 ∧
    (idleRun 1 (⟨800, 800, 1, 1⟩ : ScrollVelocityState)).published
        = min ((idleRun 1 (⟨800, 800, 1, 1⟩ : ScrollVelocityState)).smoothed / 800) 1 ∧
    (idleRun 1 (⟨800, 800, 1, 1⟩ : ScrollVelocityState)).pending = 0 ∧
    idleRun 3 (⟨800, 800, 1, 1⟩ : ScrollVelocityState)
        = idleRun 1 ⟨800, 800, 1, 1⟩ :=
  velocity_decay_amended ⟨800, 800, 1, 1⟩ rfl 3 (by norm_num)

/-! ## Morph shader rewriter (useMorphParticles/utils/rewriteVertexShader.ts)

Semantics of the generated GLSL morph logic: `scaledProgress =
uMorphProgress * (K-1)`, `progress = fract(scaledProgress)`, then an
if/else-if chain `if (scaledProgress < i+1) newPos = mix(target_i,
target_{i+1}, progress)` for `i = 0 .. K-2`, with a final `else`
`mix(target_{K-2}, target_{K-1}, 1.0)`. Keyframe vectors are modelled
componentwise as `kf : ℕ → ℚ`. -/

/-- GLSL `mix(x, y, a) = x*(1-a) + y*a`. -/
def glslMix (x y a : ℚ) : ℚ := x * (1 - a) + y * a

/-- The generated branch chain: `i` is the current branch index, `fuel`
the number of `scaledProgress < i+1` tests still to emit (`K-1` at the
top); exhausting them reaches the final `else` clamped segment. -/
def chainGo (kf : ℕ → ℚ) (scaled prog : ℚ) (K : ℕ) : ℕ → ℕ → ℚ
  | _, 0 => glslMix (kf (K - 2)) (kf (K - 1)) 1
  | i, fuel + 1 =>
      if scaled < (i : ℚ) + 1 then glslMix (kf i) (kf (i + 1)) prog
      else chainGo kf scaled prog K (i + 1) fuel

/-- Source: `scaledProgress = uMorphProgress * (K - 1)`. -/
def morphScaled (K : ℕ) (p : ℚ) : ℚ := p * ((K : ℚ) - 1)

/-- Value produced by the generated morph logic at raw progress `p`. -/
def morphResult (K : ℕ) (kf : ℕ → ℚ) (p : ℚ) : ℚ :=
  chainGo kf (morphScaled K p) (Int.fract (morphScaled K p)) K 0 (K - 1)

lemma chainGo_fallback (kf : ℕ → ℚ) (scaled prog : ℚ) (K : ℕ) :
    ∀ fuel i, ((i + fuel : ℕ) : ℚ) ≤ scaled →
      chainGo kf scaled prog K i fuel = glslMix (kf (K - 2)) (kf (K - 1)) 1 := by
  intro fuel
  induction fuel with
  | zero => intro i _; rfl
  | succ m ih =>
    intro i h
    have hfalse : ¬ scaled < (i : ℚ) + 1 := by
      push_cast at h
      push_neg
      linarith
    rw [chainGo, if_neg hfalse]
    apply ih
    push_cast at h ⊢
    linarith

lemma chainGo_hit (kf : ℕ → ℚ) (scaled prog : ℚ) (K : ℕ) :
    ∀ fuel i j, i ≤ j → j < i + fuel →
      ((j : ℕ) : ℚ) ≤ scaled → scaled < ((j : ℕ) : ℚ) + 1 →
      chainGo kf scaled prog K i fuel = glslMix (kf j) (kf (j + 1)) prog := by
  intro fuel
  induction fuel with
  | zero => intro i j hij hj _ _; omega
  | succ m ih =>
    intro i j hij hj hlo hhi
    rcases eq_or_lt_of_le hij with heq | hlt
    · subst heq
      rw [chainGo, if_pos hhi]
    · have hfalse : ¬ scaled < (i : ℚ) + 1 := by
        push_neg
        have : (i : ℚ) + 1 ≤ (j : ℚ) := by exact_mod_cast hlt
        linarith
      rw [chainGo, if_neg hfalse]
      exact ih (i + 1) j hlt (by omega) hlo hhi

lemma fract_eq_of_bounds (x : ℚ) (j : ℕ) (hlo : ((j : ℕ) : ℚ) ≤ x)
    (hhi : x < ((j : ℕ) : ℚ) + 1) : Int.fract x = x - (j : ℚ) := by
  have hfl : ⌊x⌋ = (j : ℤ) := by
    rw [Int.floor_eq_iff]
    constructor
    · exact_mod_cast hlo
    · push_cast
      exact_mod_cast hhi
  rw [Int.fract, hfl]
  push_cast
  ring

/-- C4: for keyframe count `K ≥ 2` and raw progress `p ∈ [0,1]`, the
generated morph logic computes `scaledProgress = p*(K-1)`; at `p = 0`
it selects keyframe 0 exactly; at `p = 1` it selects keyframe `K-1`
exactly; and at every `p` with `j ≤ scaled < j+1` for a segment index
`j ≤ K-2` it mixes only the adjacent keyframes `j` and `j+1` with mix
factor `fract(scaled) = scaled - j`, never skipping a keyframe. -/
theorem morph_interpolation_spec (K : ℕ) (kf : ℕ → ℚ) (p : ℚ)
    (hK : 2 ≤ K) (hp0 : 0 ≤ p) (hp1 : p ≤ 1) :
    morphScaled K p = p * ((K : ℚ) - 1) ∧
    (p = 0 → morphResult K kf p = kf 0) ∧
    (p = 1 → morphResult K kf p = kf (K - 1)) ∧
    (∀ j : ℕ, j + 1 ≤ K - 1 →
      ((j : ℕ) : ℚ) ≤ morphScaled K p → morphScaled K p < ((j : ℕ) : ℚ) + 1 →
      morphResult K kf p = glslMix (kf j) (kf (j + 1)) (morphScaled K p - (j : ℚ))) := by
  refine ⟨rfl, ?_, ?_, ?_⟩
  · intro hp
    subst hp
    have hs : morphScaled K 0 = 0 := by simp [morphScaled]
    have h01 : (1 : ℕ) ≤ K - 1 := by omega
    rw [morphResult, hs]
    rw [chainGo_hit kf 0 (Int.fract 0) K (K - 1) 0 0 le_rfl (by omega)
      (by norm_num) (by norm_num)]
    rw [Int.fract_zero, glslMix]
    ring
  · intro hp
    subst hp
    have hs : morphScaled K 1 = ((K - 1 : ℕ) : ℚ) := by
      rw [morphScaled]
      push_cast [Nat.cast_sub (by omega : 1 ≤ K)]
      ring
    rw [morphResult, hs]
    rw [chainGo_fallback kf _ _ K (K - 1) 0 (by push_cast; ring_nf; exact le_rfl)]
    rw [glslMix]
    ring
  · intro j hjK hlo hhi
    rw [morphResult]
    rw [chainGo_hit kf _ _ K (K - 1) 0 j (Nat.zero_le j) (by omega) hlo hhi]
    rw [fract_eq_of_bounds _ j hlo hhi]

theorem morph_interpolation_spec_witness :
    morphResult 3 (fun n => (n : ℚ)) 0 = ((0 : ℕ) : ℚ) ∧
    morphResult 3 (fun n => (n : ℚ)) 1 = ((3 - 1 : ℕ) : ℚ) ∧
    morphResult 3 (fun n => (n : ℚ)) (1 / 4)
      = glslMix ((0 : ℕ) : ℚ) ((0 + 1 : ℕ) : ℚ)
          (morphScaled 3 (1 / 4) - ((0 : ℕ) : ℚ)) :=
  ⟨(morph_interpolation_spec 3 (fun n => (n : ℚ)) 0 (by norm_num) le_rfl
      (by norm_num)).2.1 rfl,
   (morph_interpolation_spec 3 (fun n => (n : ℚ)) 1 (by norm_num) (by norm_num)
      le_rfl).2.2.1 rfl,
   (morph_interpolation_spec 3 (fun n => (n : ℚ)) (1 / 4) (by norm_num)
      (by norm_num) (by norm_num)).2.2.2 0 (by norm_num)
      (by norm_num [morphScaled]) (by norm_num [morphScaled])⟩

/-! ## GPUCursor spring (GPUCursor.tsx, animateCursor)

Per axis: `velocity += (target - current) * 0.06; velocity *= 0.75;
current += velocity`. State is `(current, velocity)`. Convergence is
proved through an exact Lyapunov identity: the quadratic form
`cursorEnergy` contracts by exactly 3/4 every frame. -/

/-- One frame of `animateCursor` for one axis. -/
def animateCursorStep (target : ℚ) (s : ℚ × ℚ) : ℚ × ℚ :=
  let stiffness : ℚ := 0.06
  let damping : ℚ := 0.75
  let d := target - s.1
  let v := (s.2 + d * stiffness) * damping
  (s.1 + v, v)

def animateCursorIter (target : ℚ) : ℕ → ℚ × ℚ → ℚ × ℚ
  | 0, s => s
  | n + 1, s => animateCursorStep target (animateCursorIter target n s)

/-- Quadratic Lyapunov form adapted to the spring matrix
(eigenvalue modulus squared is 3/4). -/
def cursorEnergy (target : ℚ) (s : ℚ × ℚ) : ℚ :=
  (3719 / 160000) * (s.1 - target) ^ 2 +
    ((41 / 400) * (s.1 - target) + (3 / 4) * s.2) ^ 2

lemma cursorEnergy_step (t : ℚ) (s : ℚ × ℚ) :
    cursorEnergy t (animateCursorStep t s) = (3 / 4) * cursorEnergy t s := by
  obtain ⟨c, v⟩ := s
  show cursorEnergy t (c + (v + (t - c) * 0.06) * 0.75, (v + (t - c) * 0.06) * 0.75)
    = (3 / 4) * cursorEnergy t (c, v)
  rw [cursorEnergy, cursorEnergy]
  norm_num
  ring

lemma cursorEnergy_nonneg (t : ℚ) (s : ℚ × ℚ) : 0 ≤ cursorEnergy t s := by
  rw [cursorEnergy]
  positivity

lemma cursorEnergy_iter (t : ℚ) (n : ℕ) (s : ℚ × ℚ) :
    cursorEnergy t (animateCursorIter t n s) = (3 / 4) ^ n * cursorEnergy t s := by
  induction n with
  | zero => simp [animateCursorIter]
  | succ m ih =>
    rw [animateCursorIter, cursorEnergy_step, ih]
    ring

lemma sq_err_le_energy (t : ℚ) (s : ℚ × ℚ) :
    (s.1 - t) ^ 2 ≤ (160000 / 3719) * cursorEnergy t s := by
  rw [cursorEnergy]
  nlinarith [sq_nonneg ((41 / 400) * (s.1 - t) + (3 / 4) * s.2)]

lemma cursor_converges_aux (t c0 v0 ε : ℚ) (hε : 0 < ε) :
    ∃ N, ∀ n, N ≤ n → |(animateCursorIter t n (c0, v0)).1 - t| < ε := by
  set Q0 := cursorEnergy t (c0, v0) with hQ0def
  have hQ0 : 0 ≤ Q0 := cursorEnergy_nonneg t (c0, v0)
  have hC : (0 : ℚ) < (160000 / 3719) * (Q0 + 1) := by positivity
  obtain ⟨N, hN⟩ := exists_pow_lt_of_lt_one
    (show (0 : ℚ) < ε ^ 2 / ((160000 / 3719) * (Q0 + 1)) by positivity)
    (show (3 / 4 : ℚ) < 1 by norm_num)
  refine ⟨N, fun n hn => ?_⟩
  have hpow : (3 / 4 : ℚ) ^ n ≤ (3 / 4) ^ N :=
    pow_le_pow_of_le_one (by norm_num) (by norm_num) hn
  have hpow0 : (0 : ℚ) ≤ (3 / 4 : ℚ) ^ n := by positivity
  have h1 : ((animateCursorIter t n (c0, v0)).1 - t) ^ 2
      ≤ (160000 / 3719) * ((3 / 4) ^ n * Q0) := by
    have := sq_err_le_energy t (animateCursorIter t n (c0, v0))
    rwa [cursorEnergy_iter] at this
  have h2 : ((animateCursorIter t n (c0, v0)).1 - t) ^ 2 < ε ^ 2 := by
    have hq : (3 / 4 : ℚ) ^ n * Q0 ≤ (3 / 4) ^ N * (Q0 + 1) := by
      apply mul_le_mul hpow (by linarith) hQ0 (by positivity)
    have hlt : (3 / 4 : ℚ) ^ N * (Q0 + 1)
        < ε ^ 2 / ((160000 / 3719) * (Q0 + 1)) * (Q0 + 1) := by
      apply mul_lt_mul_of_pos_right hN (by linarith)
    have heq : ε ^ 2 / ((160000 / 3719) * (Q0 + 1)) * (Q0 + 1) * (160000 / 3719)
        = ε ^ 2 := by
      field_simp
      ring
    nlinarith
  rcases abs_cases ((animateCursorIter t n (c0, v0)).1 - t) with ⟨ha, _⟩ | ⟨ha, _⟩ <;>
    nlinarith

/-- C5: for every constant target and every initial state, iterating the
cursor spring step drives `current` within any positive tolerance of the
target after a bounded number of frames (in particular within 1% of a
nonzero target), asymptotically; and the motion is never an
instantaneous snap: starting at rest away from the target, one frame
does not land on the target. -/
theorem cursor_spring_convergence_spec (t c0 v0 ε : ℚ) (hε : 0 < ε) :
    (∃ N, ∀ n, N ≤ n → |(animateCursorIter t n (c0, v0)).1 - t| < ε) ∧
    (t ≠ 0 → ∃ N, ∀ n, N ≤ n →
      |(animateCursorIter t n (c0, v0)).1 - t| < |t| / 100) ∧
    (v0 = 0 → c0 ≠ t → (animateCursorIter t 1 (c0, v0)).1 ≠ t) := by
  refine ⟨cursor_converges_aux t c0 v0 ε hε, fun ht => ?_, fun hv hc => ?_⟩
  · exact cursor_converges_aux t c0 v0 (|t| / 100)
      (by positivity)
  · intro heq
    apply hc
    have : c0 + ((v0 + (t - c0) * 0.06) * 0.75) = t := heq
    rw [hv] at this
    norm_num at this
    linarith

theorem cursor_spring_convergence_spec_witness :
    (∃ N, ∀ n, N ≤ n → |(animateCursorIter 1 n ((0 : ℚ), (0 : ℚ))).1 - 1| < 1 / 2) ∧
    (∃ N, ∀ n, N ≤ n →
      |(animateCursorIter 1 n ((0 : ℚ), (0 : ℚ))).1 - 1| < |(1 : ℚ)| / 100) ∧
    (animateCursorIter 1 1 ((0 : ℚ), (0 : ℚ))).1 ≠ 1 :=
  ⟨(cursor_spring_convergence_spec 1 0 0 (1 / 2) (by norm_num)).1,
   (cursor_spring_convergence_spec 1 0 0 (1 / 2) (by norm_num)).2.1 (by norm_num),
   (cursor_spring_convergence_spec 1 0 0 (1 / 2) (by norm_num)).2.2 rfl
     (by norm_num)⟩

end Portfolio
